import Mathlib

/-!
Verification of the fetch-orchestration engine of the karhuno-linkedin-parser
repository, shallowly embedded in Lean.

Conventions used throughout this development:
  - Wall-clock instants are natural numbers; time.time subtractions become
    truncated Nat subtraction (the repository never relies on negative gaps).
  - Python float response times and averages are idealized as rationals.
  - The proxy dictionary returned by ProxyManager.get_proxy, namely
    \x7b http: http://p, https: http://p \x7d, is represented by its underlying
    address p : String; both dictionary entries are determined by p, and
    mark_success / mark_failed recover p by checking the http key and stripping
    the http:// prefix, which always succeeds on dictionaries built by
    get_proxy.  A None proxy is Option.none.
  - randomness (random.random probability checks, random.choice, and the
    per-session user-agent draws) is an explicit oracle stream of naturals,
    consumed one draw per call; random.random() < q is modeled as
    draw mod 100 < 100q and random.choice l as l at draw mod length.
-/

/-- Per-proxy statistics record, mirroring the dictionaries stored in
ProxyManager.proxy_stats (proxy_manager.py lines 330-342). -/
structure ProxyStat where
  requests : Nat
  successful : Nat
  failed : Nat
  firstUsed : Option Nat
  lastUsed : Option Nat
  avgResponseTime : ℚ

/-- State of ProxyManager (proxy_manager.py lines 39-54): the proxy list, the
round-robin cursor, the failed set, refresh bookkeeping and counters.  The
stats dictionary is a partial map from address to ProxyStat. -/
structure PMState where
  enabled : Bool
  proxies : List String
  currentIndex : Nat
  failed : List String
  lastRefresh : Nat
  maxProxies : Nat
  refreshInterval : Nat
  stats : String → Option ProxyStat
  totalRequests : Nat
  successfulRequests : Nat
  failedRequests : Nat

/-- Environment of one ProxyManager interaction: the current wall clock and the
raw HTTP bodies the two enabled proxy sources would deliver (none models a
request that raises, caught at proxy_manager.py line 131).  The third source
of PROXY_SOURCES (html_table) carries enabled: False and is skipped at line
70, so it needs no response here. -/
structure PMEnv where
  now : Nat
  respLines : Option String
  respJson : Option String

/-- Validation of one dotted-quad address octet: int(part) then a range check
(proxy_manager.py lines 244-247); a non-numeric part raises and the enclosing
try returns False.  Python int accepts some exotic spellings (underscores,
signs) that String.toNat? rejects; real proxy feeds contain plain digits. -/
def validOctet (p : String) : Bool :=
  match p.toNat? with
  | some n => n ≤ 255
  | none => false

/-- Port validation, proxy_manager.py lines 250-252. -/
def validPort (p : String) : Bool :=
  match p.toNat? with
  | some n => if 1 ≤ n ∧ n ≤ 65535 then true else false
  | none => false

/-- ProxyManager._validate_proxy (proxy_manager.py lines 228-256). -/
def validateProxy (ip port : String) : Bool :=
  ((ip.splitOn ".").length == 4) && (ip.splitOn ".").all validOctet && validPort port

/-- ProxyManager._parse_proxies_lines (proxy_manager.py lines 135-167):
strip the text, split into lines, keep the lines of shape ip:port with no
blank, tab or CR, whose two parts are nonempty and validate. -/
def parseProxiesLines (text : String) : List String :=
  (text.trim.splitOn "\n").filterMap fun rawLine =>
    let line := rawLine.trim
    if line == "" then none
    else if line.contains ':' && !(line.contains ' ') && !(line.contains '\t')
        && !(line.contains '\r') then
      match line.splitOn ":" with
      | [a, b] => if a != "" && b != "" && validateProxy a b then some line else none
      | _ => none
    else none

/-- The attribute lookup requests.json performed at proxy_manager.py line 180.
The requests library exposes no attribute named json at module level, so the
lookup raises AttributeError (and even if it resolved to the stdlib json
module, calling it as json(text) would raise TypeError); either exception is
caught by the handler at line 192. -/
def requestsJsonAttr : Except String Unit :=
  Except.error "AttributeError: module requests has no attribute json"

/-- The body of ProxyManager._parse_proxies_json before its exception handler
(proxy_manager.py lines 179-191): the first statement evaluates requests.json,
which raises, so the LISTA extraction code below it is unreachable. -/
def parseProxiesJsonBody (text : String) : Except String (List String) :=
  match requestsJsonAttr with
  | Except.error e => Except.error e
  | Except.ok _ =>
    -- unreachable: the attribute lookup above always raises
    Except.ok ((text.splitOn ":").filterMap fun _ => none)

/-- ProxyManager._parse_proxies_json (proxy_manager.py lines 169-194): the body
wrapped in the try/except that returns the empty list on any exception. -/
def parseProxiesJson (text : String) : List String :=
  match parseProxiesJsonBody text with
  | Except.error _ => []
  | Except.ok l => l

/-- Contribution of the lines-format source (proxyscrape) to a refresh: a
request failure contributes nothing (exception caught at line 131), otherwise
the lines format parse of the body. -/
def linesSourceResult (resp : Option String) : List String :=
  match resp with
  | none => []
  | some t => parseProxiesLines t

/-- Contribution of the JSON-format source (freeproxylists) to a refresh. -/
def jsonSourceResult (resp : Option String) : List String :=
  match resp with
  | none => []
  | some t => parseProxiesJson t

/-- The concatenated candidate list gathered by ProxyManager._fetch_proxies
over PROXY_SOURCES (proxy_manager.py lines 66-86): the lines source, then the
JSON source; the html_table source is disabled and skipped at line 70. -/
def collectSources (env : PMEnv) : List String :=
  linesSourceResult env.respLines ++ jsonSourceResult env.respJson

/-- ProxyManager._fetch_proxies (proxy_manager.py lines 59-101): deduplicate
the gathered candidates (list(set(..)) has arbitrary order; we use dedup),
drop the addresses already marked failed, cap the list at max_proxies, and
assign it to the pool unconditionally; last_refresh advances and True is
returned only when the resulting list is nonempty. -/
def fetchProxies (env : PMEnv) (s : PMState) : Bool × PMState :=
  let newList := (((collectSources env).dedup.filter fun p => p ∉ s.failed).take s.maxProxies)
  if newList.isEmpty then (false, { s with proxies := newList })
  else (true, { s with proxies := newList, lastRefresh := env.now })

/-- Fresh statistics record created at proxy_manager.py lines 330-338. -/
def freshStat (now : Nat) : ProxyStat :=
  { requests := 0, successful := 0, failed := 0, firstUsed := some now,
    lastUsed := none, avgResponseTime := 0 }

/-- The rotation loop of ProxyManager.get_proxy (proxy_manager.py lines
313-348), with the attempts counter modeled as fuel (entered with fuel
2 * len(proxies)): wrap the cursor, take the proxy under the cursor, advance
the cursor, skip it when failed, otherwise record the usage statistics and
return it.  The inner index access cannot miss: the loop is entered only with
a nonempty proxy list and the cursor is wrapped first. -/
def getProxyRotation (now : Nat) : Nat → PMState → Option String × PMState
  | 0, s => (none, s)
  | fuel + 1, s =>
    let i := if s.proxies.length ≤ s.currentIndex then 0 else s.currentIndex
    match s.proxies[i]? with
    | none => (none, s)
    | some p =>
      let s1 := { s with currentIndex := i + 1 }
      if p ∈ s1.failed then getProxyRotation now fuel s1
      else
        let st0 := match s1.stats p with
          | some st => st
          | none => freshStat now
        (some p,
          { s1 with
            stats := fun q =>
              if q = p then some { st0 with requests := st0.requests + 1, lastUsed := some now }
              else s1.stats q,
            totalRequests := s1.totalRequests + 1 })

/-- ProxyManager.get_proxy (proxy_manager.py lines 291-352): direct connection
when disabled; refresh when the pool is stale; when the pool is empty, refresh
and give up (direct connection) if that fails; otherwise rotate. -/
def getProxy (env : PMEnv) (s : PMState) : Option String × PMState :=
  if !s.enabled then (none, s)
  else
    let s1 := if s.refreshInterval < env.now - s.lastRefresh then (fetchProxies env s).2 else s
    if s1.proxies.isEmpty then
      let fp := fetchProxies env s1
      if fp.1 then getProxyRotation env.now (2 * fp.2.proxies.length) fp.2
      else (none, fp.2)
    else getProxyRotation env.now (2 * s1.proxies.length) s1

/-- ProxyManager.mark_success (proxy_manager.py lines 354-376): a None proxy
fails the guard and nothing changes; otherwise the per-proxy success counter
and running average are updated when a stats entry exists, and the global
success counter is incremented. -/
def markSuccess (d : Option String) (rt : ℚ) (s : PMState) : PMState :=
  match d with
  | none => s
  | some p =>
    let s1 :=
      match s.stats p with
      | none => s
      | some st0 =>
        let st1 := { st0 with successful := st0.successful + 1 }
        let st2 :=
          if 0 < rt then
            let total : ℚ := ((st1.successful + st1.failed : Nat) : ℚ)
            { st1 with avgResponseTime := (st1.avgResponseTime * (total - 1) + rt) / total }
          else st1
        { s with stats := fun q => if q = p then some st2 else s.stats q }
    { s1 with successfulRequests := s1.successfulRequests + 1 }

/-- ProxyManager.mark_failed (proxy_manager.py lines 378-394): a None proxy
fails the guard and nothing changes; otherwise the address joins the failed
set, its failure counter is updated when a stats entry exists, and the global
failure counter is incremented. -/
def markFailed (d : Option String) (s : PMState) : PMState :=
  match d with
  | none => s
  | some p =>
    { s with
      failed := if p ∈ s.failed then s.failed else p :: s.failed,
      stats :=
        match s.stats p with
        | none => s.stats
        | some st0 => fun q => if q = p then some { st0 with failed := st0.failed + 1 } else s.stats q,
      failedRequests := s.failedRequests + 1 }

/-- A convenient baseline ProxyManager state matching the constructor defaults
(proxy_manager.py lines 39-54). -/
def basePM : PMState :=
  { enabled := true, proxies := [], currentIndex := 0, failed := [], lastRefresh := 0,
    maxProxies := 50, refreshInterval := 300, stats := fun _ => none,
    totalRequests := 0, successfulRequests := 0, failedRequests := 0 }

/-- mark_success never touches the failed set or the proxy list. -/
lemma markSuccess_frame (d : Option String) (rt : ℚ) (s : PMState) :
    (markSuccess d rt s).failed = s.failed ∧ (markSuccess d rt s).proxies = s.proxies := by
  cases d with
  | none => exact ⟨rfl, rfl⟩
  | some p =>
    simp only [markSuccess]
    cases s.stats p <;> simp

/-- A refresh never modifies the failed set. -/
lemma fetchProxies_failed (env : PMEnv) (s : PMState) :
    ((fetchProxies env s).2).failed = s.failed := by
  simp only [fetchProxies]
  split <;> rfl

/-- The rotation loop never hands out an address from the failed set. -/
lemma getProxyRotation_excluded (now : Nat) :
    ∀ (fuel : Nat) (s : PMState) (p : String), p ∈ s.failed →
      ∀ q, (getProxyRotation now fuel s).1 = some q → q ≠ p := by
  intro fuel
  induction fuel with
  | zero =>
    intro s p _ q h
    simp [getProxyRotation] at h
  | succ n ih =>
    intro s p hp q h
    simp only [getProxyRotation] at h
    set i := if s.proxies.length ≤ s.currentIndex then 0 else s.currentIndex with hi
    cases hg : s.proxies[i]? with
    | none => rw [hg] at h; simp at h
    | some r =>
      rw [hg] at h
      simp only at h
      by_cases hr : r ∈ s.failed
      · rw [if_pos hr] at h
        refine ih _ p ?_ q h
        exact hp
      · rw [if_neg hr] at h
        simp only [Prod.fst] at h
        cases h
        intro hqp
        exact hr (hqp ▸ hp)

/-- C4: once an address has been reported failed, get_proxy never returns it
again, and mark_success never removes it from the failed set nor changes the
proxy list; only a refresh rebuilds the pool, and even a refresh filters the
failed set out of the fresh source data. -/
theorem failed_proxy_never_reacquired (env : PMEnv) (s : PMState) (p : String)
    (hp : p ∈ s.failed) :
    (∀ q, (getProxy env s).1 = some q → q ≠ p)
    ∧ (∀ d rt, (markSuccess d rt s).failed = s.failed ∧ (markSuccess d rt s).proxies = s.proxies)
    ∧ p ∉ ((fetchProxies env s).2).proxies := by
  refine ⟨?_, fun d rt => markSuccess_frame d rt s, ?_⟩
  · intro q h
    simp only [getProxy] at h
    by_cases he : s.enabled
    · rw [if_neg (by simp [he])] at h
      set s1 := if s.refreshInterval < env.now - s.lastRefresh then (fetchProxies env s).2 else s with hs1
      have hs1f : s1.failed = s.failed := by
        rw [hs1]; split
        · exact fetchProxies_failed env s
        · rfl
      by_cases hempty : s1.proxies.isEmpty
      · rw [if_pos hempty] at h
        by_cases hfp : (fetchProxies env s1).1
        · rw [if_pos hfp] at h
          exact getProxyRotation_excluded env.now _ _ p
            (by rw [fetchProxies_failed env s1, hs1f]; exact hp) q h
        · rw [if_neg hfp] at h
          simp at h
      · rw [if_neg hempty] at h
        exact getProxyRotation_excluded env.now _ _ p (by rw [hs1f]; exact hp) q h
    · rw [if_pos (by simp [he])] at h
      simp at h
  · have key : ∀ n, p ∉ (((collectSources env).dedup.filter fun q => q ∉ s.failed).take n) := by
      intro n hm
      have h1 := List.take_subset n _ hm
      have h2 := (List.mem_filter.mp h1).2
      simp [hp] at h2
    simp only [fetchProxies]
    split <;> exact key _

/-- C4 witness: with a concrete pool holding one failed and one healthy
address, get_proxy does not return the failed one. -/
theorem failed_proxy_witness :
    ("9.9.9.9:80" : String) ∈
        ({ basePM with proxies := ["9.9.9.9:80", "2.2.2.2:80"], failed := ["9.9.9.9:80"] } : PMState).failed
    ∧ (getProxy { now := 0, respLines := none, respJson := none }
        { basePM with proxies := ["9.9.9.9:80", "2.2.2.2:80"], failed := ["9.9.9.9:80"] }).1
      ≠ some "9.9.9.9:80" := by
  refine ⟨by decide, fun h => ?_⟩
  exact (failed_proxy_never_reacquired
    { now := 0, respLines := none, respJson := none }
    { basePM with proxies := ["9.9.9.9:80", "2.2.2.2:80"], failed := ["9.9.9.9:80"] }
    "9.9.9.9:80" (by decide)).1 _ h rfl

/-- C5 counterexample: a pool holding one proxy, refreshed while every source
fails, ends up empty; the previous contents are not kept. -/
theorem refresh_all_fail_clears_pool_cx :
    ({ basePM with proxies := ["1.2.3.4:80"] } : PMState).proxies = ["1.2.3.4:80"]
    ∧ (fetchProxies { now := 50, respLines := none, respJson := none }
        { basePM with proxies := ["1.2.3.4:80"] }).2.proxies = []
    ∧ ([] : List String) ≠ ["1.2.3.4:80"] := by
  exact ⟨rfl, rfl, by decide⟩

/-- C5 amended: a refresh always replaces the pool with the list computed from
fresh source data alone (deduplicated, failed addresses removed, capped); in
particular, when every source errors or yields nothing, the pool becomes empty
rather than keeping its previous contents, the refresh reports failure, and
last_refresh does not advance. -/
theorem refresh_pool_from_sources_only (env : PMEnv) (s : PMState) :
    ((fetchProxies env s).2).proxies
        = (((collectSources env).dedup.filter fun p => p ∉ s.failed).take s.maxProxies)
    ∧ (collectSources env = [] →
        ((fetchProxies env s).2).proxies = []
        ∧ (fetchProxies env s).1 = false
        ∧ ((fetchProxies env s).2).lastRefresh = s.lastRefresh) := by
  constructor
  · simp only [fetchProxies]
    split <;> rfl
  · intro hc
    simp [fetchProxies, hc]

/-- C5 amended witness: concrete all-failing refresh. -/
theorem refresh_sources_witness :
    (fetchProxies { now := 50, respLines := none, respJson := none }
        { basePM with proxies := ["1.2.3.4:80"] }).1 = false
    ∧ (fetchProxies { now := 50, respLines := none, respJson := none }
        { basePM with proxies := ["1.2.3.4:80"] }).2.lastRefresh = 0 :=
  ⟨((refresh_pool_from_sources_only
      { now := 50, respLines := none, respJson := none }
      { basePM with proxies := ["1.2.3.4:80"] }).2 rfl).2.1,
   ((refresh_pool_from_sources_only
      { now := 50, respLines := none, respJson := none }
      { basePM with proxies := ["1.2.3.4:80"] }).2 rfl).2.2⟩

/-- C9: the JSON-format source parse always returns the empty list and never
raises, because its first statement evaluates the nonexistent requests.json
attribute and the resulting exception is absorbed by the handler; hence the
JSON source never contributes a proxy to a refresh. -/
theorem parse_json_always_empty (text : String) (resp : Option String) :
    parseProxiesJsonBody text
        = Except.error "AttributeError: module requests has no attribute json"
    ∧ parseProxiesJson text = []
    ∧ jsonSourceResult resp = [] := by
  refine ⟨rfl, rfl, ?_⟩
  cases resp <;> rfl

/-- C10: mark_success and mark_failed called with no proxy (the direct
connection case) leave the whole pool state unchanged, and mark_success never
modifies the failed set or the proxy list. -/
theorem mark_none_noop_frame (s : PMState) (rt : ℚ) :
    markSuccess none rt s = s
    ∧ markFailed none s = s
    ∧ ∀ d, (markSuccess d rt s).failed = s.failed ∧ (markSuccess d rt s).proxies = s.proxies :=
  ⟨rfl, rfl, fun d => markSuccess_frame d rt s⟩

/-- Configuration of RateLimiter (rate_limiter.py lines 11-23). -/
structure RLConfig where
  minDelay : Nat
  maxDelay : Nat
  enabled : Bool
deriving DecidableEq

/-- The body of RateLimiter.wait between the enabled check and the final
write (rate_limiter.py lines 30-40), idealizing time.sleep as exact: given the
last recorded request time, the current clock and the sampled delay, the
instant at which the call returns. -/
def rlPlanned (last now d : Nat) : Nat :=
  if now - last < d then now + (d - (now - last)) else now

/-- RateLimiter.wait (rate_limiter.py lines 25-42) executed without
interference: returns the pair (return instant, new last_request_time); when
disabled it returns immediately and writes nothing. -/
def rlWait (c : RLConfig) (last now d : Nat) : Nat × Nat :=
  if c.enabled then (rlPlanned last now d, rlPlanned last now d) else (now, last)

/-- Two concurrent callers of RateLimiter.wait interleaved so that both
execute lines 30-40 (read last_request_time, compute, sleep) before either
reaches the write at line 42.  wait holds no lock, so this interleaving is
possible; each caller returns at its independently planned instant. -/
def rlConcurrentPair (last now dA dB : Nat) : Nat × Nat :=
  (rlPlanned last now dA, rlPlanned last now dB)

/-- C6 counterexample: with minDelay 2, maxDelay 5 enabled, both concurrent
callers sampling delay 3 while last_request_time is long past read the same
stale value and return at the same instant 100; the two consecutive returns
are separated by 0 < minDelay, so the claimed atomic read-modify-write
behaviour does not hold of the lock-free code. -/
theorem rateLimiter_concurrent_bypass_cx :
    (⟨2, 5, true⟩ : RLConfig).enabled = true
    ∧ (⟨2, 5, true⟩ : RLConfig).minDelay ≤ 3 ∧ 3 ≤ (⟨2, 5, true⟩ : RLConfig).maxDelay
    ∧ rlConcurrentPair 0 100 3 3 = (100, 100)
    ∧ (rlConcurrentPair 0 100 3 3).2 - (rlConcurrentPair 0 100 3 3).1
        < (⟨2, 5, true⟩ : RLConfig).minDelay := by
  refine ⟨rfl, by decide, by decide, by decide, by decide⟩

/-- C6 amended: for serialized callers the guarantee does hold — when the
limiter is enabled and a second wait call starts no earlier than the return of
the first (whose write of last_request_time completed), the second return is
at least minDelay after the first, for every sampled delay of at least
minDelay. -/
theorem rateLimiter_sequential_min_gap (c : RLConfig) (last0 now1 d1 now2 d2 : Nat)
    (hen : c.enabled = true) (hd2 : c.minDelay ≤ d2)
    (hnow : (rlWait c last0 now1 d1).1 ≤ now2) :
    (rlWait c last0 now1 d1).1 + c.minDelay
      ≤ (rlWait c (rlWait c last0 now1 d1).2 now2 d2).1 := by
  simp only [rlWait, hen, if_true] at hnow ⊢
  set r1 := rlPlanned last0 now1 d1 with hr1
  unfold rlPlanned
  split <;> omega

/-- C6 amended witness: a concrete serialized pair of wait calls. -/
theorem rateLimiter_seq_witness :
    (rlWait ⟨2, 5, true⟩ 0 10 3).1 + (⟨2, 5, true⟩ : RLConfig).minDelay
      ≤ (rlWait ⟨2, 5, true⟩ (rlWait ⟨2, 5, true⟩ 0 10 3).2 11 4).1 :=
  rateLimiter_sequential_min_gap ⟨2, 5, true⟩ 0 10 3 11 4 rfl (by decide) (by decide)

/-- One entry of SessionManager.sessions (session_manager.py lines 53, 61-94):
ids are generated from the monotone counter session_count, so we keep the
numeric counter part of the id; sessions built by create_new_session_for_ip
additionally remember the ip their X-Forwarded-For header is bound to. -/
structure SMSession where
  id : Nat
  userAgent : String
  cookies : List (String × String)
  ipTag : Option String
deriving DecidableEq, Repr

/-- State of SessionManager (session_manager.py lines 45-59): the session
dictionary in insertion order, the id counter, the pool bound and the
configured user-agent list. -/
structure SMState where
  sessions : List SMSession
  sessionCount : Nat
  maxSessions : Nat
  userAgents : List String
deriving DecidableEq, Repr

/-- One draw from the randomness oracle stream; an exhausted stream yields 0. -/
def takeRand : List Nat → Nat × List Nat
  | [] => (0, [])
  | x :: xs => (x, xs)

/-- random.choice over the configured user-agent list, driven by one oracle
draw; the configuration always supplies a nonempty list, the empty default is
unreachable. -/
def pickUA (uas : List String) (x : Nat) : String :=
  match uas[x % uas.length]? with
  | some u => u
  | none => ""

/-- SessionManager._create_session (session_manager.py lines 61-94): a fresh
session with id session_count, a randomly chosen user-agent and an empty
cookie jar, appended to the dictionary; the counter advances. -/
def smCreate (sm : SMState) (rng : List Nat) : SMState × List Nat :=
  let d := takeRand rng
  ({ sm with
     sessions := sm.sessions ++
       [{ id := sm.sessionCount, userAgent := pickUA sm.userAgents d.1, cookies := [],
          ipTag := none }]
     sessionCount := sm.sessionCount + 1 }, d.2)

/-- SessionManager.get_session (session_manager.py lines 96-118): with the
pool under its bound, a 30 percent chance of creating a session first; then a
random session is picked and, with 20 percent probability, its user-agent is
rotated in place. -/
def smGetSession (sm : SMState) (rng : List Nat) : SMState × List Nat :=
  let c :=
    if sm.sessions.length < sm.maxSessions then
      let d := takeRand rng
      if d.1 % 100 < 30 then smCreate sm d.2 else (sm, d.2)
    else (sm, rng)
  let d1 := takeRand c.2
  let idx := d1.1 % c.1.sessions.length
  let d2 := takeRand d1.2
  if d2.1 % 100 < 20 then
    let d3 := takeRand d2.2
    match c.1.sessions[idx]? with
    | some s =>
      ({ c.1 with sessions := c.1.sessions.set idx { s with userAgent := pickUA c.1.userAgents d3.1 } },
        d3.2)
    | none => (c.1, d3.2)
  else (c.1, d2.2)

/-- The recursion behind rotate_user_agent with no session id
(session_manager.py lines 143-147): every session receives a freshly drawn
user-agent, one oracle draw per session, in dictionary order. -/
def uaAllGo (uas : List String) : List SMSession → List Nat → List SMSession × List Nat
  | [], rng => ([], rng)
  | s :: rest, rng =>
    let d := takeRand rng
    let r := uaAllGo uas rest d.2
    ({ s with userAgent := pickUA uas d.1 } :: r.1, r.2)

/-- SessionManager.rotate_user_agent called with session_id None. -/
def smRotateUAAll (sm : SMState) (rng : List Nat) : SMState × List Nat :=
  let r := uaAllGo sm.userAgents sm.sessions rng
  ({ sm with sessions := r.1 }, r.2)

/-- SessionManager.clear_cookies called with session_id None
(session_manager.py lines 160-164): every cookie jar is emptied. -/
def smClearCookiesAll (sm : SMState) : SMState :=
  { sm with sessions := sm.sessions.map fun s => { s with cookies := [] } }

/-- SessionManager.rotate_session (session_manager.py lines 166-179):
get_session, then with 15 percent probability rotate every user-agent. -/
def smRotateSession (sm : SMState) (rng : List Nat) : SMState × List Nat :=
  let g := smGetSession sm rng
  let d := takeRand g.2
  if d.1 % 100 < 15 then smRotateUAAll g.1 d.2 else (g.1, d.2)

/-- SessionManager.create_new_session_for_ip (session_manager.py lines
181-218): a fresh session whose id embeds the counter and the given ip and
whose header set carries X-Forwarded-For bound to it. -/
def smNewSessionForIp (ip : String) (sm : SMState) (rng : List Nat) : SMState × List Nat :=
  let d := takeRand rng
  ({ sm with
     sessions := sm.sessions ++
       [{ id := sm.sessionCount, userAgent := pickUA sm.userAgents d.1, cookies := [],
          ipTag := some ip }]
     sessionCount := sm.sessionCount + 1 }, d.2)

/-- SessionManager.clear_all_sessions (session_manager.py lines 241-245):
drop every session, then create exactly one fresh one. -/
def smClearAll (sm : SMState) (rng : List Nat) : SMState × List Nat :=
  smCreate { sm with sessions := [] } rng

/-- Invariant of SessionManager: every stored session id is strictly below the
counter; it holds of the constructor output and is preserved by every
operation, so a session created from the current counter is fresh. -/
def SMInv (sm : SMState) : Prop :=
  ∀ s ∈ sm.sessions, s.id < sm.sessionCount

lemma smCreate_inv {sm : SMState} {rng : List Nat} (h : SMInv sm) :
    SMInv (smCreate sm rng).1 := by
  intro s hs
  simp only [smCreate, List.mem_append, List.mem_singleton] at hs
  rcases hs with hs | hs
  · exact Nat.lt_succ_of_lt (h s hs)
  · subst hs
    exact Nat.lt_succ_self sm.sessionCount

lemma smGetSession_inv {sm : SMState} {rng : List Nat} (h : SMInv sm) :
    SMInv (smGetSession sm rng).1 := by
  simp only [smGetSession]
  set c := if sm.sessions.length < sm.maxSessions then
      let d := takeRand rng
      if d.1 % 100 < 30 then smCreate sm d.2 else (sm, d.2)
    else (sm, rng) with hc
  have hcinv : SMInv c.1 := by
    rw [hc]
    split
    · dsimp only
      split
      · exact smCreate_inv h
      · exact h
    · exact h
  split
  · rcases hg : c.1.sessions[(takeRand c.2).1 % c.1.sessions.length]? with _ | s
    · simpa [hg] using hcinv
    · simp only [hg]
      intro t ht
      rcases List.mem_or_eq_of_mem_set ht with ht' | ht'
      · exact hcinv t ht'
      · subst ht'
        exact hcinv s (List.getElem?_mem hg)
  · exact hcinv

lemma uaAllGo_ids (uas : List String) :
    ∀ (l : List SMSession) (rng : List Nat), ∀ x ∈ (uaAllGo uas l rng).1,
      ∃ y ∈ l, x.id = y.id := by
  intro l
  induction l with
  | nil => intro rng x hx; simp [uaAllGo] at hx
  | cons s rest ih =>
    intro rng x hx
    simp only [uaAllGo, List.mem_cons] at hx
    rcases hx with hx | hx
    · exact ⟨s, List.mem_cons_self s rest, by simp [hx]⟩
    · obtain ⟨y, hy, hxy⟩ := ih _ x hx
      exact ⟨y, List.mem_cons_of_mem s hy, hxy⟩

lemma smRotateUAAll_inv {sm : SMState} {rng : List Nat} (h : SMInv sm) :
    SMInv (smRotateUAAll sm rng).1 := by
  intro s hs
  simp only [smRotateUAAll] at hs
  obtain ⟨y, hy, hxy⟩ := uaAllGo_ids sm.userAgents sm.sessions rng s hs
  simpa [hxy] using h y hy

lemma smRotateSession_inv {sm : SMState} {rng : List Nat} (h : SMInv sm) :
    SMInv (smRotateSession sm rng).1 := by
  simp only [smRotateSession]
  split
  · exact smRotateUAAll_inv (smGetSession_inv h)
  · exact smGetSession_inv h

lemma smClearCookiesAll_inv {sm : SMState} (h : SMInv sm) :
    SMInv (smClearCookiesAll sm) := by
  intro s hs
  simp only [smClearCookiesAll, List.mem_map] at hs
  obtain ⟨y, hy, hxy⟩ := hs
  simpa [← hxy] using h y hy

lemma smNewSessionForIp_inv {ip : String} {sm : SMState} {rng : List Nat} (h : SMInv sm) :
    SMInv (smNewSessionForIp ip sm rng).1 := by
  intro s hs
  simp only [smNewSessionForIp, List.mem_append, List.mem_singleton] at hs
  rcases hs with hs | hs
  · exact Nat.lt_succ_of_lt (h s hs)
  · subst hs
    exact Nat.lt_succ_self sm.sessionCount

lemma smClearAll_inv {sm : SMState} {rng : List Nat} :
    SMInv (smClearAll sm rng).1 := by
  intro s hs
  simp only [smClearAll, smCreate, List.nil_append, List.mem_singleton] at hs
  subst hs
  exact Nat.lt_succ_self sm.sessionCount

/-- Shape of the pool immediately after clear_all_sessions: exactly one
session, carrying the id taken from the counter of the state it cleared. -/
lemma smClearAll_shape (sm : SMState) (rng : List Nat) :
    (smClearAll sm rng).1.sessions
      = [{ id := sm.sessionCount, userAgent := pickUA sm.userAgents (takeRand rng).1,
           cookies := [], ipTag := none }] := rfl

/-- The transport-level exceptions distinguished by the handler chain of
LinkedInParser._fetch_page (linkedin_parser.py lines 198-247): InvalidURL,
Timeout, ConnectionError, the RequestException catch-all, and the final
generic Exception handler. -/
inductive TransportErr where
  | invalidURL
  | timeoutErr
  | connError
  | reqError
  | otherExc
deriving DecidableEq, Repr

/-- Outcome of one lightweight attempt, as scripted by the environment: a
response with its HTTP status code and body text, or a raised transport
exception. -/
inductive Outcome where
  | status (code : Nat) (body : String)
  | transport (e : TransportErr)
deriving DecidableEq, Repr

/-- The configuration read by LinkedInParser from its config object
(linkedin_parser.py lines 44-45, 49-55): max_retries, retry_delay, and
whether the browser fallback was importable and constructed. -/
structure FetchCfg where
  maxRetries : Nat
  retryDelay : Nat
  browserAvailable : Bool
deriving DecidableEq, Repr

/-- Environment of one logical fetch: the scripted outcome of each attempt
index, the html the browser fallback would deliver (none for a fetch_profile
returning None; the empty string is falsy in Python and behaves like none),
the result of check_blockage, the proxy-pool environment and the elapsed
response time fed to mark_success. -/
structure FetchEnv where
  script : Nat → Outcome
  browserHtml : Option String
  browserBlocked : Bool
  pmEnv : PMEnv
  respTime : ℚ

/-- State carried through the attempt loop of _fetch_page, together with the
instrumentation a verification needs: the number of rate_limiter.wait calls
performed, the backoff sleeps executed, the proxy used by each attempt, the
attempt indices at which the browser fallback was invoked, and for every 429
the session-manager state just before and just after clear_all_sessions. -/
structure FetchState where
  pm : PMState
  sm : SMState
  rng : List Nat
  attemptsMade : Nat
  waitCalls : Nat
  sleeps : List Nat
  proxiesUsed : List (Option String)
  fallbackLog : List Nat
  log429 : List (SMState × SMState)

/-- The opening of every loop iteration (linkedin_parser.py lines 69-95):
get_proxy then rotate_session, one attempt counted, the acquired proxy
recorded. -/
def stepBase (env : FetchEnv) (st : FetchState) : FetchState :=
  { st with
    pm := (getProxy env.pmEnv st.pm).2
    sm := (smRotateSession st.sm st.rng).1
    rng := (smRotateSession st.sm st.rng).2
    attemptsMade := st.attemptsMade + 1
    proxiesUsed := st.proxiesUsed ++ [(getProxy env.pmEnv st.pm).1] }

/-- State after the 403 remedies (linkedin_parser.py lines 114-121):
mark_failed, clear_cookies over all sessions, rotate_user_agent over all
sessions. -/
def st403 (env : FetchEnv) (st : FetchState) : FetchState :=
  { stepBase env st with
    pm := markFailed (getProxy env.pmEnv st.pm).1 (stepBase env st).pm
    sm := (smRotateUAAll (smClearCookiesAll (stepBase env st).sm) (stepBase env st).rng).1
    rng := (smRotateUAAll (smClearCookiesAll (stepBase env st).sm) (stepBase env st).rng).2 }

/-- State after a remedy that only marks the acquired proxy failed. -/
def stMarkFail (env : FetchEnv) (st : FetchState) : FetchState :=
  { stepBase env st with
    pm := markFailed (getProxy env.pmEnv st.pm).1 (stepBase env st).pm }

/-- State of the non-final 999 branch when the attempt ran without a proxy:
create_new_session_for_ip is reached with the placeholder ip unknown
(linkedin_parser.py line 156). -/
def st999Direct (env : FetchEnv) (st : FetchState) : FetchState :=
  { stMarkFail env st with
    sm := (smNewSessionForIp "unknown" (stMarkFail env st).sm (stMarkFail env st).rng).1
    rng := (smNewSessionForIp "unknown" (stMarkFail env st).sm (stMarkFail env st).rng).2 }

/-- State after the 429 remedies (linkedin_parser.py lines 169-174):
mark_failed then clear_all_sessions; the pair of session states around the
clear is logged. -/
def st429 (env : FetchEnv) (st : FetchState) : FetchState :=
  { stMarkFail env st with
    sm := (smClearAll (stMarkFail env st).sm (stMarkFail env st).rng).1
    rng := (smClearAll (stMarkFail env st).sm (stMarkFail env st).rng).2
    log429 := (stMarkFail env st).log429 ++
      [((stMarkFail env st).sm,
        (smClearAll (stMarkFail env st).sm (stMarkFail env st).rng).1)] }

/-- State after invoking the browser fallback (linkedin_parser.py line 146):
the proxy was already marked failed at line 141 and the invocation is
logged under its attempt index. -/
def stFallback (env : FetchEnv) (attempt : Nat) (st : FetchState) : FetchState :=
  { stMarkFail env st with
    fallbackLog := (stMarkFail env st).fallbackLog ++ [attempt] }

/-- Result of one loop iteration: a return from _fetch_page, or a backoff
sleep followed by the next iteration. -/
inductive StepRes where
  | done (res : Option String) (st : FetchState)
  | cont (backoff : Nat) (st : FetchState)

/-- The state carried out of a step, whichever way it ended. -/
def stepStateOf : StepRes → FetchState
  | StepRes.done _ s => s
  | StepRes.cont _ s => s

/-- One iteration of the attempt loop of LinkedInParser._fetch_page
(linkedin_parser.py lines 69-247); fin holds exactly on the final attempt
(attempt == max_retries - 1).  Branches, in source order:
  - 200: mark_success, return the parsed page (its html body);
  - 403: mark_failed, clear cookies, rotate user-agents, retry with
    backoff retry_delay (return None when final);
  - 404: return None immediately, nothing else happens;
  - 999: mark_failed; on the final attempt with the browser parser available,
    invoke the fallback and return its html when it is nonempty and
    check_blockage is false, else return None.  Otherwise the code reaches
    create_new_session_for_ip(proxy.replace(..)): when a proxy dictionary is
    present, proxy.replace raises AttributeError (dictionaries have no
    replace), the generic except absorbs it and the retry uses backoff
    retry_delay; when the attempt was direct, the session is created for the
    placeholder ip and the retry uses backoff 2 * retry_delay;
  - 429: mark_failed, clear_all_sessions, retry with backoff 3 * retry_delay;
  - other statuses: mark_failed, retry with backoff retry_delay;
  - transport exceptions: mark_failed (except under the generic Exception
    handler, which does not touch the proxy), retry with backoff
    retry_delay. -/
def attemptStep (cfg : FetchCfg) (env : FetchEnv) (fin : Bool) (attempt : Nat)
    (st : FetchState) : StepRes :=
  match env.script attempt with
  | Outcome.status c body =>
    if c = 200 then
      StepRes.done (some body)
        { stepBase env st with
          pm := markSuccess (getProxy env.pmEnv st.pm).1 env.respTime (stepBase env st).pm }
    else if c = 403 then
      if fin then StepRes.done none (st403 env st)
      else StepRes.cont cfg.retryDelay (st403 env st)
    else if c = 404 then
      StepRes.done none (stepBase env st)
    else if c = 999 then
      if fin && cfg.browserAvailable then
        if (env.browserHtml.getD "") ≠ "" ∧ env.browserBlocked = false then
          StepRes.done (some (env.browserHtml.getD "")) (stFallback env attempt st)
        else StepRes.done none (stFallback env attempt st)
      else
        match (getProxy env.pmEnv st.pm).1 with
        | some _ =>
          if fin then StepRes.done none (stMarkFail env st)
          else StepRes.cont cfg.retryDelay (stMarkFail env st)
        | none =>
          if fin then StepRes.done none (st999Direct env st)
          else StepRes.cont (2 * cfg.retryDelay) (st999Direct env st)
    else if c = 429 then
      if fin then StepRes.done none (st429 env st)
      else StepRes.cont (3 * cfg.retryDelay) (st429 env st)
    else
      if fin then StepRes.done none (stMarkFail env st)
      else StepRes.cont cfg.retryDelay (stMarkFail env st)
  | Outcome.transport e =>
    match e with
    | TransportErr.otherExc =>
      if fin then StepRes.done none (stepBase env st)
      else StepRes.cont cfg.retryDelay (stepBase env st)
    | _ =>
      if fin then StepRes.done none (stMarkFail env st)
      else StepRes.cont cfg.retryDelay (stMarkFail env st)

/-- The attempt loop for attempt in range(max_retries) of _fetch_page, with
the remaining iteration count as fuel; a cont sleeps its backoff and starts
the next iteration, and an exhausted loop returns None (line 249). -/
def fetchLoop (cfg : FetchCfg) (env : FetchEnv) :
    Nat → Nat → FetchState → Option String × FetchState
  | 0, _, st => (none, st)
  | fuel + 1, attempt, st =>
    match attemptStep cfg env (fuel == 0) attempt st with
    | StepRes.done r st1 => (r, st1)
    | StepRes.cont d st1 =>
      fetchLoop cfg env fuel (attempt + 1) { st1 with sleeps := st1.sleeps ++ [d] }

/-- Initial loop state of one logical fetch: rate_limiter.wait() has run
exactly once, before the loop (linkedin_parser.py line 67). -/
def startState (pm0 : PMState) (sm0 : SMState) (rng0 : List Nat) : FetchState :=
  { pm := pm0, sm := sm0, rng := rng0, attemptsMade := 0, waitCalls := 1,
    sleeps := [], proxiesUsed := [], fallbackLog := [], log429 := [] }

/-- LinkedInParser._fetch_page (linkedin_parser.py lines 57-249) over a
scripted environment. -/
def fetchPage (cfg : FetchCfg) (env : FetchEnv) (pm0 : PMState) (sm0 : SMState)
    (rng0 : List Nat) : Option String × FetchState :=
  fetchLoop cfg env cfg.maxRetries 0 (startState pm0 sm0 rng0)

/-- What parse_profile hands back to its caller as far as failure reporting
is concerned (linkedin_parser.py lines 764-784): a fetch that returned None
becomes one fixed error payload whose attempts field is max_retries whatever
actually happened, and a successful fetch proceeds to extraction over the
returned page. -/
inductive CallerResult where
  | errorPayload (error : String) (attempts : Nat)
  | profile (html : String)
deriving DecidableEq, Repr

/-- The failure-reporting behaviour of LinkedInParser.parse_profile. -/
def parseProfileOutcome (cfg : FetchCfg) (env : FetchEnv) (pm0 : PMState)
    (sm0 : SMState) (rng0 : List Nat) : CallerResult :=
  match (fetchPage cfg env pm0 sm0 rng0).1 with
  | none => CallerResult.errorPayload "Failed to load profile page" cfg.maxRetries
  | some h => CallerResult.profile h

/-- Every step counts one attempt, records the acquired proxy, and leaves the
wait counter and the sleep log untouched (sleeps are appended by the loop,
not by the step). -/
lemma attemptStep_frame (cfg : FetchCfg) (env : FetchEnv) (fin : Bool) (a : Nat)
    (st : FetchState) :
    (stepStateOf (attemptStep cfg env fin a st)).waitCalls = st.waitCalls
    ∧ (stepStateOf (attemptStep cfg env fin a st)).attemptsMade = st.attemptsMade + 1
    ∧ (stepStateOf (attemptStep cfg env fin a st)).sleeps = st.sleeps
    ∧ (stepStateOf (attemptStep cfg env fin a st)).proxiesUsed
        = st.proxiesUsed ++ [(getProxy env.pmEnv st.pm).1] := by
  cases hs : env.script a with
  | status c body =>
    simp only [attemptStep, hs]
    repeat' split
    all_goals
      simp [stepStateOf, stepBase, st403, stMarkFail, st999Direct, st429, stFallback]
  | transport e =>
    cases e <;>
      · simp only [attemptStep, hs]
        split
        all_goals simp [stepStateOf, stepBase, stMarkFail]

/-- A step either leaves the fallback log alone or, exactly when it is the
final attempt, the browser parser is available and the scripted status is
999, appends that attempt index to it. -/
lemma attemptStep_fallback (cfg : FetchCfg) (env : FetchEnv) (fin : Bool) (a : Nat)
    (st : FetchState) :
    (stepStateOf (attemptStep cfg env fin a st)).fallbackLog = st.fallbackLog
    ∨ ((stepStateOf (attemptStep cfg env fin a st)).fallbackLog = st.fallbackLog ++ [a]
        ∧ fin = true ∧ cfg.browserAvailable = true
        ∧ ∃ b, env.script a = Outcome.status 999 b) := by
  cases hs : env.script a with
  | status c body =>
    simp only [attemptStep, hs]
    repeat' split
    all_goals
      first
      | (left
         simp only [stepStateOf, stepBase, st403, stMarkFail, st999Direct, st429]
         done)
      | (right
         refine ⟨?_, ?_, ?_, body, ?_⟩
         · simp [stepStateOf, stFallback, stMarkFail, stepBase]
         · simp_all [Bool.and_eq_true]
         · simp_all [Bool.and_eq_true]
         · simp_all)
  | transport e =>
    cases e <;>
      · simp only [attemptStep, hs]
        split
        all_goals
          left
          simp only [stepStateOf, stepBase, stMarkFail]

/-- A step that continues the loop never touches the fallback log. -/
lemma attemptStep_cont_fallback (cfg : FetchCfg) (env : FetchEnv) (fin : Bool) (a : Nat)
    (st : FetchState) :
    ∀ d st1, attemptStep cfg env fin a st = StepRes.cont d st1 →
      st1.fallbackLog = st.fallbackLog := by
  intro d st1 h
  cases hs : env.script a with
  | status c body =>
    simp only [attemptStep, hs] at h
    repeat' split at h
    all_goals
      cases h <;> simp [st403, stMarkFail, st999Direct, st429, stepBase]
  | transport e =>
    cases e <;>
      · simp only [attemptStep, hs] at h
        split at h
        all_goals cases h <;> simp [stMarkFail, stepBase]

/-- When the browser fallback delivers nonempty unblocked html, a step that
extends the fallback log returns that html as the page. -/
lemma attemptStep_fallback_result (cfg : FetchCfg) (env : FetchEnv) (fin : Bool)
    (a : Nat) (st : FetchState) (h : String)
    (hh : env.browserHtml = some h) (hne : h ≠ "") (hb : env.browserBlocked = false) :
    ∀ r st1, attemptStep cfg env fin a st = StepRes.done r st1 →
      st1.fallbackLog ≠ st.fallbackLog → r = some h := by
  intro r st1 hstep hlog
  cases hs : env.script a with
  | status c body =>
    simp only [attemptStep, hs] at hstep
    repeat' split at hstep
    all_goals
      cases hstep <;>
        simp_all [stepBase, st403, stMarkFail, st999Direct, st429, stFallback]
  | transport e =>
    cases e <;>
      · simp only [attemptStep, hs] at hstep
        split at hstep
        all_goals
          cases hstep <;> simp_all [stepBase, stMarkFail]

/-- A step either leaves the 429 log alone or appends exactly the pair of
session states around the clear_all_sessions call of the 429 branch. -/
lemma attemptStep_log429 (cfg : FetchCfg) (env : FetchEnv) (fin : Bool) (a : Nat)
    (st : FetchState) :
    (stepStateOf (attemptStep cfg env fin a st)).log429 = st.log429
    ∨ (stepStateOf (attemptStep cfg env fin a st)).log429
        = st.log429 ++
          [((smRotateSession st.sm st.rng).1,
            (smClearAll (smRotateSession st.sm st.rng).1
              (smRotateSession st.sm st.rng).2).1)] := by
  cases hs : env.script a with
  | status c body =>
    simp only [attemptStep, hs]
    repeat' split
    all_goals
      first
      | (left
         simp only [stepStateOf, stepBase, st403, stMarkFail, st999Direct, stFallback]
         done)
      | (right
         simp only [stepStateOf, st429, stMarkFail, stepBase])
  | transport e =>
    cases e <;>
      · simp only [attemptStep, hs]
        split
        all_goals
          left
          simp only [stepStateOf, stepBase, stMarkFail]

set_option maxHeartbeats 1000000 in
/-- Every step preserves the session-manager invariant. -/
lemma attemptStep_smInv (cfg : FetchCfg) (env : FetchEnv) (fin : Bool) (a : Nat)
    (st : FetchState) (h : SMInv st.sm) :
    SMInv (stepStateOf (attemptStep cfg env fin a st)).sm := by
  cases hs : env.script a with
  | status c body =>
    simp only [attemptStep, hs]
    repeat' split
    all_goals
      simp only [stepStateOf, stepBase, st403, stMarkFail, st999Direct, st429, stFallback]
    all_goals
      first
      | exact smRotateSession_inv h
      | exact smRotateUAAll_inv (smClearCookiesAll_inv (smRotateSession_inv h))
      | exact smNewSessionForIp_inv (smRotateSession_inv h)
      | exact smClearAll_inv
  | transport e =>
    cases e <;>
      · simp only [attemptStep, hs]
        split
        all_goals
          simp only [stepStateOf, stepBase, stMarkFail]
        all_goals exact smRotateSession_inv h

/-- The attempt loop never touches the wait counter and only appends to the
per-attempt proxy record and to the sleep log. -/
lemma fetchLoop_trace (cfg : FetchCfg) (env : FetchEnv) :
    ∀ (f a : Nat) (st : FetchState),
      ((fetchLoop cfg env f a st).2).waitCalls = st.waitCalls
      ∧ (∃ t, ((fetchLoop cfg env f a st).2).proxiesUsed = st.proxiesUsed ++ t)
      ∧ (∃ t, ((fetchLoop cfg env f a st).2).sleeps = st.sleeps ++ t) := by
  intro f
  induction f with
  | zero => exact fun a st => ⟨rfl, ⟨[], by simp [fetchLoop]⟩, ⟨[], by simp [fetchLoop]⟩⟩
  | succ n ih =>
    intro a st
    have hframe := attemptStep_frame cfg env (n == 0) a st
    cases hstep : attemptStep cfg env (n == 0) a st with
    | done r st1 =>
      rw [hstep] at hframe
      simp only [stepStateOf] at hframe
      simp only [fetchLoop, hstep]
      exact ⟨hframe.1, ⟨_, hframe.2.2.2⟩, ⟨[], by simp [hframe.2.2.1]⟩⟩
    | cont d st1 =>
      rw [hstep] at hframe
      simp only [stepStateOf] at hframe
      simp only [fetchLoop, hstep]
      obtain ⟨h1, ⟨t2, h2⟩, ⟨t3, h3⟩⟩ := ih (a + 1) { st1 with sleeps := st1.sleeps ++ [d] }
      refine ⟨by rw [h1]; exact hframe.1, ⟨[(getProxy env.pmEnv st.pm).1] ++ t2, ?_⟩,
        ⟨[d] ++ t3, ?_⟩⟩
      · rw [h2]
        simp [hframe.2.2.2]
      · rw [h3]
        simp [hframe.2.2.1]

/-- Loop invariant for the browser fallback: a run either leaves the fallback
log unchanged, or extends it by exactly the last attempt index of the run,
which was scripted 999 with the browser parser available; and in the latter
case, whenever the fallback html is nonempty and unblocked, that html is the
result of the run. -/
lemma fetchLoop_fallback_inv (cfg : FetchCfg) (env : FetchEnv) :
    ∀ (f a : Nat) (st : FetchState),
      ((fetchLoop cfg env f a st).2).fallbackLog = st.fallbackLog
      ∨ (∃ b, ((fetchLoop cfg env f a st).2).fallbackLog = st.fallbackLog ++ [a + f - 1]
          ∧ env.script (a + f - 1) = Outcome.status 999 b
          ∧ cfg.browserAvailable = true ∧ 1 ≤ f
          ∧ (∀ h, env.browserHtml = some h → h ≠ "" → env.browserBlocked = false →
              (fetchLoop cfg env f a st).1 = some h)) := by
  intro f
  induction f with
  | zero => exact fun a st => Or.inl rfl
  | succ n ih =>
    intro a st
    have hfb := attemptStep_fallback cfg env (n == 0) a st
    cases hstep : attemptStep cfg env (n == 0) a st with
    | done r st1 =>
      rw [hstep] at hfb
      simp only [stepStateOf] at hfb
      simp only [fetchLoop, hstep]
      rcases hfb with hfb | ⟨hlog, hfin, hav, b, hscript⟩
      · exact Or.inl hfb
      · have hn : n = 0 := by
          by_contra hn
          simp [Nat.beq_eq_true_eq] at hfin
          omega
        subst hn
        refine Or.inr ⟨b, by simpa using hlog, by simpa using hscript, hav, le_refl 1, ?_⟩
        intro h hh hne hb
        exact attemptStep_fallback_result cfg env (0 == 0) a st h hh hne hb r st1 hstep
          (by rw [hlog]; intro he; simpa using congrArg List.length he)
    | cont d st1 =>
      have hcf := attemptStep_cont_fallback cfg env (n == 0) a st d st1 hstep
      simp only [fetchLoop, hstep]
      rcases ih (a + 1) { st1 with sleeps := st1.sleeps ++ [d] } with hrec | ⟨b, h1, h2, h3, h4, h5⟩
      · left
        rw [hrec]
        exact hcf
      · right
        have hidx : a + 1 + n - 1 = a + (n + 1) - 1 := by omega
        refine ⟨b, ?_, by rw [← hidx]; exact h2, h3, by omega, fun h hh hne hb => h5 h hh hne hb⟩
        rw [h1]
        simp [hcf, hidx]

/-- The property logged for every 429 remedy: the pool after the clear holds
exactly one session, whose id is the counter of the pool before the clear and
therefore differs from the id of every session that existed before. -/
def GoodPair (p : SMState × SMState) : Prop :=
  p.2.sessions.length = 1
  ∧ ∀ s ∈ p.2.sessions, s.id = p.1.sessionCount ∧ ∀ t ∈ p.1.sessions, s.id ≠ t.id

/-- clear_all_sessions applied to an invariant-respecting pool yields a good
pair. -/
lemma goodPair_clearAll (smB : SMState) (rngB : List Nat) (h : SMInv smB) :
    GoodPair (smB, (smClearAll smB rngB).1) := by
  refine ⟨by rw [smClearAll_shape]; rfl, ?_⟩
  intro s hs
  rw [smClearAll_shape] at hs
  simp only [List.mem_singleton] at hs
  subst hs
  exact ⟨rfl, fun t ht => (Nat.ne_of_lt (h t ht)).symm⟩

/-- Loop invariant for the 429 remedy: starting from an invariant-respecting
session pool and a log of good pairs, the loop keeps the invariant and logs
only good pairs. -/
lemma fetchLoop_429_inv (cfg : FetchCfg) (env : FetchEnv) :
    ∀ (f a : Nat) (st : FetchState), SMInv st.sm → (∀ p ∈ st.log429, GoodPair p) →
      SMInv ((fetchLoop cfg env f a st).2).sm
      ∧ ∀ p ∈ ((fetchLoop cfg env f a st).2).log429, GoodPair p := by
  intro f
  induction f with
  | zero => exact fun a st hInv hGood => ⟨hInv, hGood⟩
  | succ n ih =>
    intro a st hInv hGood
    have hInv1 := attemptStep_smInv cfg env (n == 0) a st hInv
    have hlog := attemptStep_log429 cfg env (n == 0) a st
    have hGood1 : ∀ p ∈ (stepStateOf (attemptStep cfg env (n == 0) a st)).log429, GoodPair p := by
      rcases hlog with hlog | hlog
      · rw [hlog]; exact hGood
      · rw [hlog]
        intro p hp
        rcases List.mem_append.mp hp with hp | hp
        · exact hGood p hp
        · simp only [List.mem_singleton] at hp
          subst hp
          exact goodPair_clearAll _ _ (smRotateSession_inv hInv)
    cases hstep : attemptStep cfg env (n == 0) a st with
    | done r st1 =>
      rw [hstep] at hInv1 hGood1
      simp only [stepStateOf] at hInv1 hGood1
      simp only [fetchLoop, hstep]
      exact ⟨hInv1, hGood1⟩
    | cont d st1 =>
      rw [hstep] at hInv1 hGood1
      simp only [stepStateOf] at hInv1 hGood1
      simp only [fetchLoop, hstep]
      exact ih (a + 1) { st1 with sleeps := st1.sleeps ++ [d] } hInv1 hGood1

/-- The first attempt of any run with at least one iteration left records the
output of get_proxy on the incoming pool state as the proxy it used. -/
lemma fetchLoop_first_proxy (cfg : FetchCfg) (env : FetchEnv) (f a : Nat)
    (st : FetchState) :
    ((fetchLoop cfg env (f + 1) a st).2).proxiesUsed[st.proxiesUsed.length]?
      = some (getProxy env.pmEnv st.pm).1 := by
  have hframe := attemptStep_frame cfg env (f == 0) a st
  cases hstep : attemptStep cfg env (f == 0) a st with
  | done r st1 =>
    rw [hstep] at hframe
    simp only [stepStateOf] at hframe
    simp only [fetchLoop, hstep]
    rw [hframe.2.2.2]
    exact List.getElem?_concat_length _ _
  | cont d st1 =>
    rw [hstep] at hframe
    simp only [stepStateOf] at hframe
    simp only [fetchLoop, hstep]
    obtain ⟨-, ⟨t, h2⟩, -⟩ :=
      fetchLoop_trace cfg env f (a + 1) { st1 with sleeps := st1.sleeps ++ [d] }
    rw [h2]
    show (st1.proxiesUsed ++ t)[st.proxiesUsed.length]? = _
    rw [hframe.2.2.2, List.getElem?_append_left (by simp), List.getElem?_concat_length]

/-- A session-manager state as built by the constructor: one session, counter
one, default bound ten, a user-agent list from the configuration. -/
def baseSM : SMState :=
  { sessions := [{ id := 0, userAgent := "UA0", cookies := [], ipTag := none }],
    sessionCount := 1, maxSessions := 10, userAgents := ["UA0", "UA1"] }

/-- A proxy-pool environment whose sources all fail. -/
def pmEnv0 : PMEnv := { now := 0, respLines := none, respJson := none }

/-- A proxy pool with proxy usage disabled. -/
def pmDisabled : PMState := { basePM with enabled := false }

/-- A fetch environment over a given script, with no browser fallback result,
dead proxy sources and zero elapsed time. -/
def envOf (s : Nat → Outcome) : FetchEnv :=
  { script := s, browserHtml := none, browserBlocked := false, pmEnv := pmEnv0, respTime := 0 }

/-- C1: in every logical fetch the browser fallback runs at most once; it runs
only on the final attempt (index max_retries - 1, so index + 1 = max_retries),
only when that attempt was scripted status 999 and the browser parser is
available; and whenever it ran and delivered nonempty html that the blockage
check cleared, the fetch returns exactly that html as its Success page. -/
theorem fetchPage_fallback_once_final_999 (cfg : FetchCfg) (env : FetchEnv)
    (pm0 : PMState) (sm0 : SMState) (rng0 : List Nat) :
    ((fetchPage cfg env pm0 sm0 rng0).2).fallbackLog.length ≤ 1
    ∧ (∀ i ∈ ((fetchPage cfg env pm0 sm0 rng0).2).fallbackLog,
        i + 1 = cfg.maxRetries ∧ cfg.browserAvailable = true
          ∧ ∃ b, env.script i = Outcome.status 999 b)
    ∧ (∀ h, env.browserHtml = some h → h ≠ "" → env.browserBlocked = false →
        ((fetchPage cfg env pm0 sm0 rng0).2).fallbackLog ≠ [] →
        (fetchPage cfg env pm0 sm0 rng0).1 = some h) := by
  have hmain := fetchLoop_fallback_inv cfg env cfg.maxRetries 0 (startState pm0 sm0 rng0)
  have hstart : (startState pm0 sm0 rng0).fallbackLog = [] := rfl
  rw [hstart] at hmain
  simp only [List.nil_append] at hmain
  rcases hmain with hmain | ⟨b, h1, h2, h3, h4, h5⟩
  · refine ⟨by rw [show (fetchPage cfg env pm0 sm0 rng0).2 = (fetchLoop cfg env cfg.maxRetries 0 (startState pm0 sm0 rng0)).2 from rfl, hmain]; simp, ?_, ?_⟩
    · intro i hi
      rw [show (fetchPage cfg env pm0 sm0 rng0).2 = (fetchLoop cfg env cfg.maxRetries 0 (startState pm0 sm0 rng0)).2 from rfl, hmain] at hi
      simp at hi
    · intro h _ _ _ hne
      exact absurd hmain hne
  · have hpage : ((fetchPage cfg env pm0 sm0 rng0).2).fallbackLog = [cfg.maxRetries - 1] := by
      rw [show (fetchPage cfg env pm0 sm0 rng0).2 = (fetchLoop cfg env cfg.maxRetries 0 (startState pm0 sm0 rng0)).2 from rfl, h1]
      norm_num
    refine ⟨by rw [hpage]; simp, ?_, ?_⟩
    · intro i hi
      rw [hpage] at hi
      simp only [List.mem_singleton] at hi
      subst hi
      refine ⟨by omega, h3, b, by simpa using h2⟩
    · intro h hh hne hb _
      exact h5 h hh hne hb

/-- C1 fixtures: one attempt, scripted 999, browser available and delivering
unblocked html. -/
def cfgB : FetchCfg := { maxRetries := 1, retryDelay := 5, browserAvailable := true }

def envB : FetchEnv :=
  { script := fun _ => Outcome.status 999 "blocked", browserHtml := some "H",
    browserBlocked := false, pmEnv := pmEnv0, respTime := 0 }

/-- C1 witness: on that run the fallback fired and its html is the result. -/
theorem fetchPage_fallback_witness :
    (fetchPage cfgB envB pmDisabled baseSM []).1 = some "H" :=
  (fetchPage_fallback_once_final_999 cfgB envB pmDisabled baseSM []).2.2 "H" rfl
    (by decide) rfl (by decide)

/-- C3: for every attempt of a fetch that was answered 429, immediately after
the remedy (mark_failed then clear_all_sessions) the identity pool holds
exactly one session, and that session is fresh: its id is the counter of the
pool it replaced and differs from every id that pool contained. -/
theorem fetchPage_429_resets_identity_pool (cfg : FetchCfg) (env : FetchEnv)
    (pm0 : PMState) (sm0 : SMState) (rng0 : List Nat) (hInv : SMInv sm0) :
    ∀ p ∈ ((fetchPage cfg env pm0 sm0 rng0).2).log429,
      p.2.sessions.length = 1
      ∧ ∀ s ∈ p.2.sessions, s.id = p.1.sessionCount ∧ ∀ t ∈ p.1.sessions, s.id ≠ t.id := by
  have h := (fetchLoop_429_inv cfg env cfg.maxRetries 0 (startState pm0 sm0 rng0)
    hInv (by intro p hp; simp [startState] at hp)).2
  exact fun p hp => h p hp

/-- C3 fixtures: one attempt scripted 429. -/
def cfg429 : FetchCfg := { maxRetries := 1, retryDelay := 5, browserAvailable := false }

def env429 : FetchEnv := envOf fun _ => Outcome.status 429 "limit"

/-- C3 witness: on a concrete 429 run the logged post-clear pool has exactly
one session. -/
theorem fetchPage_429_witness :
    (((fetchPage cfg429 env429 pmDisabled baseSM []).2).log429.getD 0
        (baseSM, baseSM)).2.sessions.length = 1 := by
  have h := fetchPage_429_resets_identity_pool cfg429 env429 pmDisabled baseSM []
    (by intro s hs; fin_cases hs; decide)
  exact (h _ (by decide)).1

/-- C7 amended: the Rate Governor wait() runs exactly once per logical fetch,
before the attempt loop (linkedin_parser.py line 67), however many attempts
the loop performs. -/
theorem fetchPage_wait_once (cfg : FetchCfg) (env : FetchEnv) (pm0 : PMState)
    (sm0 : SMState) (rng0 : List Nat) :
    ((fetchPage cfg env pm0 sm0 rng0).2).waitCalls = 1 :=
  (fetchLoop_trace cfg env cfg.maxRetries 0 (startState pm0 sm0 rng0)).1

/-- C7 fixtures: max_retries three, first attempt 403, second attempt 200. -/
def cfg3 : FetchCfg := { maxRetries := 3, retryDelay := 5, browserAvailable := false }

def env403then200 : FetchEnv :=
  envOf fun i => if i = 0 then Outcome.status 403 "denied" else Outcome.status 200 "ok"

/-- C7 counterexample: a fetch that makes two attempts performs one wait()
call, not two — wait() is not called once per attempt. -/
theorem wait_per_attempt_cx :
    ((fetchPage cfg3 env403then200 pmDisabled baseSM []).2).waitCalls = 1
    ∧ ((fetchPage cfg3 env403then200 pmDisabled baseSM []).2).attemptsMade = 2
    ∧ ¬ ((fetchPage cfg3 env403then200 pmDisabled baseSM []).2).waitCalls
        = ((fetchPage cfg3 env403then200 pmDisabled baseSM []).2).attemptsMade := by
  refine ⟨by decide, by decide, by decide⟩

/-- C2 amended: a fetch whose first attempt is answered 404 makes exactly one
attempt, sleeps no backoff, and fails; but the failure carries no dedicated
not-found reason — _fetch_page returns None and parse_profile reports the
same fixed error payload (with attempts = max_retries) that any blocked or
exhausted fetch receives. -/
theorem fetchPage_404_single_attempt (cfg : FetchCfg) (env : FetchEnv)
    (pm0 : PMState) (sm0 : SMState) (rng0 : List Nat) (body : String)
    (hN : 1 ≤ cfg.maxRetries) (h0 : env.script 0 = Outcome.status 404 body) :
    (fetchPage cfg env pm0 sm0 rng0).1 = none
    ∧ ((fetchPage cfg env pm0 sm0 rng0).2).attemptsMade = 1
    ∧ ((fetchPage cfg env pm0 sm0 rng0).2).sleeps = []
    ∧ parseProfileOutcome cfg env pm0 sm0 rng0
        = CallerResult.errorPayload "Failed to load profile page" cfg.maxRetries := by
  obtain ⟨m, hm⟩ : ∃ m, cfg.maxRetries = m + 1 := ⟨cfg.maxRetries - 1, by omega⟩
  have hstep :
      attemptStep cfg env (m == 0) 0 (startState pm0 sm0 rng0)
        = StepRes.done none (stepBase env (startState pm0 sm0 rng0)) := by
    simp [attemptStep, h0]
  have hrun : fetchPage cfg env pm0 sm0 rng0
      = (none, stepBase env (startState pm0 sm0 rng0)) := by
    rw [show fetchPage cfg env pm0 sm0 rng0
        = fetchLoop cfg env cfg.maxRetries 0 (startState pm0 sm0 rng0) from rfl, hm]
    simp only [fetchLoop, hstep]
  refine ⟨by rw [hrun], by rw [hrun]; rfl, by rw [hrun]; rfl, ?_⟩
  simp only [parseProfileOutcome, hrun]

/-- C2 fixtures: scripts answering every attempt 404, and every attempt 403. -/
def envAll404 : FetchEnv := envOf fun _ => Outcome.status 404 "nf"

def envAll403 : FetchEnv := envOf fun _ => Outcome.status 403 "denied"

/-- C2 counterexample: the caller-visible result of a 404 fetch is literally
the same value as that of a fetch exhausted by three 403 answers — there is
no distinct not-found reason. -/
theorem notFound_same_as_exhausted_cx :
    parseProfileOutcome cfg3 envAll404 pmDisabled baseSM []
      = parseProfileOutcome cfg3 envAll403 pmDisabled baseSM []
    ∧ parseProfileOutcome cfg3 envAll404 pmDisabled baseSM []
      = CallerResult.errorPayload "Failed to load profile page" 3 := by
  refine ⟨by decide, by decide⟩

/-- C2 amended witness: the concrete 404 run. -/
theorem fetchPage_404_witness :
    (fetchPage cfg3 envAll404 pmDisabled baseSM []).1 = none
    ∧ ((fetchPage cfg3 envAll404 pmDisabled baseSM []).2).attemptsMade = 1 :=
  ⟨(fetchPage_404_single_attempt cfg3 envAll404 pmDisabled baseSM [] "nf"
      (by decide) rfl).1,
   (fetchPage_404_single_attempt cfg3 envAll404 pmDisabled baseSM [] "nf"
      (by decide) rfl).2.1⟩

/-- C8 amended: when an attempt raises the invalid-proxy transport error and
attempts remain, the acquired proxy is marked failed and the loop retries
after a retry_delay backoff; the next attempt is not forced to skip proxy
use — it re-enters the ordinary loop and records as its proxy whatever
get_proxy returns on the updated pool (the failed address excluded only by
the rotation skip). -/
theorem invalid_proxy_marks_and_retries (cfg : FetchCfg) (env : FetchEnv)
    (f a : Nat) (st : FetchState)
    (hs : env.script a = Outcome.transport TransportErr.invalidURL) :
    fetchLoop cfg env (f + 2) a st
      = fetchLoop cfg env (f + 1) (a + 1)
          { st with
            pm := markFailed (getProxy env.pmEnv st.pm).1 (getProxy env.pmEnv st.pm).2
            sm := (smRotateSession st.sm st.rng).1
            rng := (smRotateSession st.sm st.rng).2
            attemptsMade := st.attemptsMade + 1
            proxiesUsed := st.proxiesUsed ++ [(getProxy env.pmEnv st.pm).1]
            sleeps := st.sleeps ++ [cfg.retryDelay] }
    ∧ ((fetchLoop cfg env (f + 2) a st).2).proxiesUsed[st.proxiesUsed.length + 1]?
        = some (getProxy env.pmEnv
            (markFailed (getProxy env.pmEnv st.pm).1 (getProxy env.pmEnv st.pm).2)).1 := by
  have hstep : attemptStep cfg env ((f + 1) == 0) a st
      = StepRes.cont cfg.retryDelay (stMarkFail env st) := by
    simp [attemptStep, hs]
  have hone : fetchLoop cfg env (f + 2) a st
      = fetchLoop cfg env (f + 1) (a + 1)
          { stMarkFail env st with sleeps := (stMarkFail env st).sleeps ++ [cfg.retryDelay] } := by
    show (match attemptStep cfg env ((f + 1) == 0) a st with
      | StepRes.done r st1 => (r, st1)
      | StepRes.cont d st1 =>
        fetchLoop cfg env (f + 1) (a + 1) { st1 with sleeps := st1.sleeps ++ [d] })
      = _
    rw [hstep]
  have hstate :
      ({ stMarkFail env st with
          sleeps := (stMarkFail env st).sleeps ++ [cfg.retryDelay] } : FetchState)
        = { st with
            pm := markFailed (getProxy env.pmEnv st.pm).1 (getProxy env.pmEnv st.pm).2
            sm := (smRotateSession st.sm st.rng).1
            rng := (smRotateSession st.sm st.rng).2
            attemptsMade := st.attemptsMade + 1
            proxiesUsed := st.proxiesUsed ++ [(getProxy env.pmEnv st.pm).1]
            sleeps := st.sleeps ++ [cfg.retryDelay] } := by
    simp [stMarkFail, stepBase]
  constructor
  · rw [hone, hstate]
  · rw [hone, hstate]
    have := fetchLoop_first_proxy cfg env f (a + 1)
      { st with
        pm := markFailed (getProxy env.pmEnv st.pm).1 (getProxy env.pmEnv st.pm).2
        sm := (smRotateSession st.sm st.rng).1
        rng := (smRotateSession st.sm st.rng).2
        attemptsMade := st.attemptsMade + 1
        proxiesUsed := st.proxiesUsed ++ [(getProxy env.pmEnv st.pm).1]
        sleeps := st.sleeps ++ [cfg.retryDelay] }
    simpa using this

/-- C8 fixtures: a two-proxy enabled pool, first attempt raising InvalidURL,
second attempt answered 200. -/
def pmTwo : PMState := { basePM with proxies := ["1.1.1.1:80", "2.2.2.2:80"] }

def envInvalidThen200 : FetchEnv :=
  envOf fun i => if i = 0 then Outcome.transport TransportErr.invalidURL
    else Outcome.status 200 "ok"

def cfg2 : FetchCfg := { maxRetries := 2, retryDelay := 5, browserAvailable := false }

/-- C8 counterexample: after the invalid-proxy failure of attempt one, attempt
two does not connect directly — it acquires and uses the next proxy of the
pool. -/
theorem invalid_proxy_direct_cx :
    ((fetchPage cfg2 envInvalidThen200 pmTwo baseSM []).2).proxiesUsed
      = [some "1.1.1.1:80", some "2.2.2.2:80"]
    ∧ ((fetchPage cfg2 envInvalidThen200 pmTwo baseSM []).2).proxiesUsed[1]? ≠ some none := by
  refine ⟨by decide, by decide⟩

/-- C8 amended witness: the concrete invalid-proxy run records, as the proxy
of the following attempt, exactly what get_proxy returns on the marked pool. -/
theorem invalid_proxy_witness :
    ((fetchLoop cfg2 envInvalidThen200 2 0 (startState pmTwo baseSM [])).2).proxiesUsed[1]?
      = some (getProxy envInvalidThen200.pmEnv
          (markFailed (getProxy envInvalidThen200.pmEnv (startState pmTwo baseSM []).pm).1
            (getProxy envInvalidThen200.pmEnv (startState pmTwo baseSM []).pm).2)).1 :=
  (invalid_proxy_marks_and_retries cfg2 envInvalidThen200 0 0 (startState pmTwo baseSM [])
    rfl).2
